import Mathlib

/-!
Verification of the message-routing and conversation-assignment engine of a
multi-tenant customer-service platform.  The definitions below are a shallow
embedding of the JavaScript source: Prisma entities become structures, the
relational store becomes an explicit `Store` value threaded through each
operation, and every service method that the claims mention is translated
function by function.  External collaborators (the AI completion service, the
wall clock, send success) are passed in as explicit parameters.
-/

namespace ChatFlow

/-- User roles, from the Prisma schema values used in the routing code. -/
inductive Role
  | AGENT | MANAGER | ADMIN | OWNER
deriving DecidableEq, Repr

/-- User account status; the routing code only distinguishes ACTIVE. -/
inductive UserStatus
  | ACTIVE | INACTIVE
deriving DecidableEq, Repr

/-- Conversation lifecycle states. -/
inductive ConvStatus
  | OPEN | PENDING | CLOSED
deriving DecidableEq, Repr

/-- Campaign lifecycle states. -/
inductive CampaignStatus
  | DRAFT | SCHEDULED | SENDING | SENT | CANCELLED | FAILED
deriving DecidableEq, Repr

/-- Weekday as reported by the pt-BR locale formatter in `isBusinessHours`
(`sabado` stands for "sábado", `domingo` for "domingo"). -/
inductive Weekday
  | segunda | terca | quarta | quinta | sexta | sabado | domingo
deriving DecidableEq, Repr

/-- A User row, with the fields the routing engine reads. -/
structure User where
  id : Nat
  companyId : Nat
  role : Role
  status : UserStatus
  isOnline : Bool
deriving DecidableEq, Repr

/-- A Conversation row.  `channels` models the `metadata.channels` list kept
by the omnichannel service. -/
structure Conversation where
  id : Nat
  contactId : Nat
  companyId : Nat
  status : ConvStatus
  channels : List String
deriving DecidableEq, Repr

/-- A ConversationAgent row (an assignment of an agent to a conversation). -/
structure ConversationAgent where
  userId : Nat
  conversationId : Nat
  isActive : Bool
deriving DecidableEq, Repr

/-- A Chatbot configuration row. -/
structure Chatbot where
  id : Nat
  companyId : Nat
  isActive : Bool
deriving DecidableEq, Repr

/-- A persisted Message row (only the fields the embedded operations write). -/
structure Msg where
  content : String
  direction : String
  conversationId : Nat
deriving DecidableEq, Repr

/-- The relational store, as lists of rows in the store's return order
(`findMany`/`findFirst` scan in list order). -/
structure Store where
  users : List User
  conversations : List Conversation
  assignments : List ConversationAgent
  chatbots : List Chatbot
  messages : List Msg
deriving Repr

/-- A realtime notification emitted through `notifyCompany`. -/
structure Notif where
  event : String
  conversationId : Nat
deriving DecidableEq, Repr

/-- The wall-clock reading that `isBusinessHours` extracts from
`Intl.DateTimeFormat` (local hour and weekday in America/Sao_Paulo). -/
structure Clock where
  hour : Nat
  weekday : Weekday
deriving DecidableEq, Repr

/-- Source `isBusinessHours` from src/utils/helpers.js: Monday to Friday, 9h–18h. -/
def isBusinessHours (clk : Clock) : Bool :=
  (!(clk.weekday == Weekday.sabado || clk.weekday == Weekday.domingo))
    && (9 ≤ clk.hour && clk.hour < 18)

/-- Status lookup for a conversation id (the row the store would return). -/
def convStatus (st : Store) (convId : Nat) : Option ConvStatus :=
  (st.conversations.find? (fun c => c.id == convId)).map (fun c => c.status)

/-- Source `MessageProcessor.isConversationAssigned`: whether some ConversationAgent
row for the conversation has `isActive: true`. -/
def isConversationAssigned (st : Store) (convId : Nat) : Bool :=
  st.assignments.any (fun a => a.conversationId == convId && a.isActive)

/-- Number of ConversationAgent rows with `isActive: true` for one
conversation (the quantity bounded by the single-active-assignment
invariant). -/
def activeAssignmentCount (st : Store) (convId : Nat) : Nat :=
  (st.assignments.filter (fun a => a.conversationId == convId && a.isActive)).length

/-- The `prisma.user.findMany` filter in `shouldUseChatbot`: online ACTIVE
users with role AGENT, MANAGER or ADMIN in the company. -/
def onlineRoutableUsers (st : Store) (companyId : Nat) : List User :=
  st.users.filter (fun u =>
    u.companyId == companyId && u.isOnline
      && (u.role == Role.AGENT || u.role == Role.MANAGER || u.role == Role.ADMIN)
      && u.status == UserStatus.ACTIVE)

/-- The `company.chatbots` include in `shouldUseChatbot`: the company's
chatbots with `isActive: true`. -/
def activeChatbots (st : Store) (companyId : Nat) : List Chatbot :=
  st.chatbots.filter (fun cb => cb.companyId == companyId && cb.isActive)

/-- Source `MessageProcessor.shouldUseChatbot` (non-throwing path): use the bot iff
the company has an active chatbot and (no online agents, or outside business
hours, or the conversation is unassigned). -/
def shouldUseChatbot (st : Store) (clk : Clock) (conv : Conversation) : Bool :=
  let onlineAgents := onlineRoutableUsers st conv.companyId
  let hasActiveChatbot := !(activeChatbots st conv.companyId).isEmpty
  let isUnassigned := !isConversationAssigned st conv.id
  hasActiveChatbot
    && (onlineAgents.length == 0 || !isBusinessHours clk || isUnassigned)

/-- Source `shouldUseChatbot` when its store lookup throws: the catch block logs the
error and returns false. -/
def shouldUseChatbotOnLookupFailure : Bool := false

/-- The active-assignment count the agent query loads for a user (the
`agents: { where: { isActive: true } }` include in `findAvailableAgent`). -/
def agentLoad (st : Store) (userId : Nat) : Nat :=
  (st.assignments.filter (fun a => a.userId == userId && a.isActive)).length

/-- The `prisma.user.findMany` filter in `findAvailableAgent`: online ACTIVE
AGENT or MANAGER users of the company, in store order. -/
def availableAgents (st : Store) (companyId : Nat) : List User :=
  st.users.filter (fun u =>
    u.companyId == companyId && u.isOnline && u.status == UserStatus.ACTIVE
      && (u.role == Role.AGENT || u.role == Role.MANAGER))

/-- The `reduce` step in `findAvailableAgent`:
`prev.agents.length < current.agents.length ? prev : current`. -/
def leastLoadedStep (st : Store) (prev current : User) : User :=
  if agentLoad st prev.id < agentLoad st current.id then prev else current

/-- Source `MessageProcessor.findAvailableAgent`: among the company's online ACTIVE
AGENT/MANAGER users, reduce with `leastLoadedStep`; `none` when no agent
qualifies. -/
def findAvailableAgent (st : Store) (companyId : Nat) : Option User :=
  match availableAgents st companyId with
  | [] => none
  | a :: rest => some (rest.foldl (leastLoadedStep st) a)

/-- Update the status of the conversation row with the given id
(`prisma.conversation.update`). -/
def setConvStatus (st : Store) (convId : Nat) (s : ConvStatus) : Store :=
  { st with conversations :=
      st.conversations.map (fun c => if c.id == convId then { c with status := s } else c) }

/-- Source `MessageProcessor.assignToAgent`: find an available agent; if one exists,
create a new active ConversationAgent row (without touching prior rows), set
the conversation OPEN and notify `conversation:assigned`; otherwise set it
PENDING and notify `conversation:pending`. -/
def assignToAgent (st : Store) (conv : Conversation) : Store × List Notif :=
  match findAvailableAgent st conv.companyId with
  | some agent =>
      let st' := { st with assignments :=
        st.assignments ++ [{ userId := agent.id, conversationId := conv.id, isActive := true }] }
      (setConvStatus st' conv.id ConvStatus.OPEN,
       [{ event := "conversation:assigned", conversationId := conv.id }])
  | none =>
      (setConvStatus st conv.id ConvStatus.PENDING,
       [{ event := "conversation:pending", conversationId := conv.id }])

/-- Source `assignToAgent` when its own agent lookup throws: the catch block logs
the error and returns without changing any state or notifying anyone. -/
def assignToAgentOnLookupFailure (st : Store) (_conv : Conversation) :
    Store × List Notif :=
  (st, [])

/-! Section: chatbot response pipeline (source `MessageProcessor`). -/

/-- JavaScript `String.prototype.startsWith` on character lists. -/
def charsStartWith : List Char → List Char → Bool
  | _, [] => true
  | [], _ :: _ => false
  | a :: as, b :: bs => a == b && charsStartWith as bs

/-- JavaScript `String.prototype.includes` on character lists. -/
def charsInclude (sub : List Char) : List Char → Bool
  | [] => sub.isEmpty
  | c :: rest => charsStartWith (c :: rest) sub || charsInclude sub rest

/-- JavaScript `s.includes(sub)`. -/
def jsIncludes (s sub : String) : Bool :=
  charsInclude sub.data s.data

/-- JavaScript `s.toLowerCase()` (ASCII letters; the escalation keywords are
already lower-case). -/
def jsToLower (s : String) : String :=
  String.mk (s.data.map Char.toLower)

/-- The escalation vocabulary in `MessageProcessor.shouldTransferToAgent`. -/
def transferKeywords : List String :=
  ["transferir", "atendente", "humano", "supervisor", "gerente",
   "reclamacao", "urgente", "problema grave"]

/-- Source `MessageProcessor.shouldTransferToAgent`: some keyword occurs in the
lower-cased bot reply or in the lower-cased user message. -/
def shouldTransferToAgent (response userMessage : String) : Bool :=
  let responseText := jsToLower response
  let userText := jsToLower userMessage
  transferKeywords.any (fun keyword =>
    jsIncludes responseText keyword || jsIncludes userText keyword)

/-- The result of `MessageProcessor.generateAIResponse`. -/
structure AIResponse where
  message : String
  transferToAgent : Bool
deriving Repr

/-- The fixed fallback reply used when the AI completion call fails. -/
def aiFallbackReply : String :=
  "Desculpe, estou com dificuldades tecnicas. Vou transferir voce para um de nossos atendentes."

/-- Source `MessageProcessor.generateAIResponse`: the external completion collaborator
is the `aiReply` parameter (`none` models a thrown completion error).  On
success the transfer flag comes from the keyword scan of reply and user
message; on failure the fixed fallback reply is returned with the transfer
flag forced true. -/
def generateAIResponse (userMessage : String) (aiReply : Option String) : AIResponse :=
  match aiReply with
  | some response =>
      { message := response
        transferToAgent := shouldTransferToAgent response userMessage }
  | none =>
      { message := aiFallbackReply, transferToAgent := true }

/-- Source `MessageProcessor.sendBotMessage`: persist the OUTBOUND bot message and
notify `message:new` (the channel send itself is an external effect). -/
def sendBotMessage (st : Store) (conv : Conversation) (content : String) :
    Store × List Notif :=
  ({ st with messages :=
      st.messages ++ [{ content := content, direction := "OUTBOUND", conversationId := conv.id }] },
   [{ event := "message:new", conversationId := conv.id }])

/-- Source query `prisma.chatbot.findFirst` in `processChatbotResponse`: the company's
first active chatbot in store order. -/
def findFirstChatbot (st : Store) (companyId : Nat) : Option Chatbot :=
  st.chatbots.find? (fun cb => cb.companyId == companyId && cb.isActive)

/-- Source `MessageProcessor.processChatbotResponse`: with no active chatbot, fall
back to agent assignment; otherwise consult the AI collaborator, assign to an
agent when the transfer flag is set, and otherwise send the bot reply. -/
def processChatbotResponse (st : Store) (conv : Conversation)
    (userMessage : String) (aiReply : Option String) : Store × List Notif :=
  match findFirstChatbot st conv.companyId with
  | none => assignToAgent st conv
  | some _ =>
      let aiResponse := generateAIResponse userMessage aiReply
      if aiResponse.transferToAgent then
        assignToAgent st conv
      else
        sendBotMessage st conv aiResponse.message

/-- Source `MessageProcessor.processIncomingMessage`: if the conversation id is
already in the in-memory `processingQueue`, return immediately; otherwise
route to the chatbot pipeline or to agent assignment.  The queue membership
at entry is the `queue` parameter; the routed result is returned together
with the emitted notifications. -/
def processIncomingMessage (queue : List Nat) (st : Store) (clk : Clock)
    (conv : Conversation) (userMessage : String) (aiReply : Option String) :
    Store × List Notif :=
  if conv.id ∈ queue then
    (st, [])
  else if shouldUseChatbot st clk conv then
    processChatbotResponse st conv userMessage aiReply
  else
    assignToAgent st conv

/-- Source `processIncomingMessage` when the store lookup inside `shouldUseChatbot`
throws: the caught error makes `shouldUseChatbot` return false, so routing
falls through to the agent-assignment branch. -/
def processIncomingMessageOnPresenceFailure (queue : List Nat) (st : Store)
    (conv : Conversation) : Store × List Notif :=
  if conv.id ∈ queue then
    (st, [])
  else if shouldUseChatbotOnLookupFailure then
    (st, [])
  else
    assignToAgent st conv

/-! Section: conversation lifecycle, find-or-create (omnichannel service). -/

/-- The `prisma.conversation.findFirst` filter in
`findOrCreateUnifiedConversation`: the pair's first conversation whose status
is OPEN or PENDING, in store order. -/
def findActiveConv (st : Store) (contactId companyId : Nat) : Option Conversation :=
  st.conversations.find? (fun c =>
    c.contactId == contactId && c.companyId == companyId
      && (c.status == ConvStatus.OPEN || c.status == ConvStatus.PENDING))

/-- The fresh id the store would give a newly created conversation row. -/
def freshConvId (st : Store) : Nat :=
  (st.conversations.map (fun c => c.id)).foldr max 0 + 1

/-- The metadata-channel refresh in the found branch of
`findOrCreateUnifiedConversation`: add the channel to the conversation's
channel list when absent. -/
def addChannel (st : Store) (convId : Nat) (channel : String) : Store :=
  { st with conversations := st.conversations.map (fun c =>
      if c.id == convId then
        { c with channels := if channel ∈ c.channels then c.channels else c.channels ++ [channel] }
      else c) }

/-- Source `OmnichannelService.findOrCreateUnifiedConversation`: return the existing
OPEN/PENDING conversation of the (contact, company) pair when one exists
(refreshing its channel list), else create a new conversation row — the
source creates it with `status: 'OPEN'`.  The WhatsApp inbound handler's
inline find-or-create (src/services/whatsapp.js) has the same find filter and
also creates with `status: 'OPEN'`. -/
def findOrCreateUnifiedConversation (st : Store) (contactId companyId : Nat)
    (channel : String) : Conversation × Store :=
  match findActiveConv st contactId companyId with
  | some conv => (conv, addChannel st conv.id channel)
  | none =>
      let conv : Conversation :=
        { id := freshConvId st, contactId := contactId, companyId := companyId,
          status := ConvStatus.OPEN, channels := [channel] }
      (conv, { st with conversations := st.conversations ++ [conv] })

/-- A run of consecutive inbound events for one (contact, company) pair: each
event performs the find-or-create step, and the conversation ids returned to
the callers are collected. -/
def runInbound (st : Store) (contactId companyId : Nat) (channel : String) :
    Nat → List Nat × Store
  | 0 => ([], st)
  | n + 1 =>
      let r := findOrCreateUnifiedConversation st contactId companyId channel
      let rest := runInbound r.2 contactId companyId channel n
      (r.1.id :: rest.1, rest.2)

/-- The number of the pair's conversations currently in OPEN or PENDING
state. -/
def countActivePair (st : Store) (contactId companyId : Nat) : Nat :=
  (st.conversations.filter (fun c =>
    c.contactId == contactId && c.companyId == companyId
      && (c.status == ConvStatus.OPEN || c.status == ConvStatus.PENDING))).length

/-! Section: presence manager (src/services/socket.js). -/

/-- The in-memory `PresenceManager` state: `userSockets` maps a user id to
its set of open socket ids, `socketUsers` maps a socket id back to its user.
Both JavaScript `Map`s are modelled as association lists with replace-on-set
semantics. -/
structure Presence where
  userSockets : List (Nat × List Nat)
  socketUsers : List (Nat × Nat)
deriving Repr

/-- The empty presence state built at process start. -/
def Presence.empty : Presence := { userSockets := [], socketUsers := [] }

/-- Association-list lookup (JavaScript `Map.prototype.get`). -/
def alistGet {α : Type} (l : List (Nat × α)) (k : Nat) : Option α :=
  (l.find? (fun e => e.1 == k)).map (fun e => e.2)

/-- Association-list set (JavaScript `Map.prototype.set`): replace the entry
when the key is present, else append it. -/
def alistSet {α : Type} (l : List (Nat × α)) (k : Nat) (v : α) : List (Nat × α) :=
  if (l.find? (fun e => e.1 == k)).isSome then
    l.map (fun e => if e.1 == k then (k, v) else e)
  else
    l ++ [(k, v)]

/-- Association-list delete (JavaScript `Map.prototype.delete`). -/
def alistDelete {α : Type} (l : List (Nat × α)) (k : Nat) : List (Nat × α) :=
  l.filter (fun e => !(e.1 == k))

/-- JavaScript `Set.prototype.add` on a duplicate-free list. -/
def setAdd (s : List Nat) (x : Nat) : List Nat :=
  if x ∈ s then s else s ++ [x]

/-- Source `PresenceManager.addUser`: ensure the user has a socket set, add the
socket to it, and record the socket's owner. -/
def Presence.addUser (p : Presence) (userId socketId : Nat) : Presence :=
  let withEntry :=
    match alistGet p.userSockets userId with
    | some _ => p.userSockets
    | none => alistSet p.userSockets userId []
  let sockets := (alistGet withEntry userId).getD []
  { userSockets := alistSet withEntry userId (setAdd sockets socketId)
    socketUsers := alistSet p.socketUsers socketId userId }

/-- Source `PresenceManager.removeUser`: look up the socket's owner, remove the
socket from the owner's set (dropping the entry when it empties), forget the
socket, and return the owner. -/
def Presence.removeUser (p : Presence) (socketId : Nat) : Presence × Option Nat :=
  match alistGet p.socketUsers socketId with
  | none => (p, none)
  | some userId =>
      let p' :=
        match alistGet p.userSockets userId with
        | none => p
        | some sockets =>
            let remaining := sockets.filter (fun s => !(s == socketId))
            if remaining.isEmpty then
              { p with userSockets := alistDelete p.userSockets userId }
            else
              { p with userSockets := alistSet p.userSockets userId remaining }
      ({ p' with socketUsers := alistDelete p'.socketUsers socketId }, some userId)

/-- Source `PresenceManager.isUserOnline`: the user has a non-empty socket set. -/
def Presence.isUserOnline (p : Presence) (userId : Nat) : Bool :=
  match alistGet p.userSockets userId with
  | some sockets => sockets.length > 0
  | none => false

/-! Section: campaign dispatch (src/services/campaignService.js). -/

/-- The running counters kept in `campaign.results`. -/
structure CampaignResults where
  sent : Nat
  delivered : Nat
  failed : Nat
deriving DecidableEq, Repr

/-- The batch size used by `processCampaign`. -/
def campaignBatchSize : Nat := 10

/-- One batch body of `processCampaign`: send to each recipient index in
order; `sendOk i` is the channel collaborator's verdict for recipient `i`
(failures are recorded and never abort the batch). -/
def processBatch (sendOk : Nat → Bool) (res : CampaignResults) :
    List Nat → CampaignResults
  | [] => res
  | i :: rest =>
      let res' :=
        if sendOk i then
          { res with sent := res.sent + 1, delivered := res.delivered + 1 }
        else
          { res with failed := res.failed + 1 }
      processBatch sendOk res' rest

/-- The batch loop of `processCampaign`, from recipient index `i` on.
`cancelledAt b` tells whether the campaign id had already been removed from
the in-memory `runningCampaigns` registry when the boundary check before
batch `b` ran; a positive check breaks out of the loop.  After the loop —
whether it ran out of recipients or broke on cancellation — the source
unconditionally persists `status: 'SENT'` together with the counters. -/
def campaignLoop (total : Nat) (sendOk : Nat → Bool) (cancelledAt : Nat → Bool)
    (fuel : Nat) (i : Nat) (res : CampaignResults) : CampaignStatus × CampaignResults :=
  match fuel with
  | 0 => (CampaignStatus.SENT, res)
  | fuel + 1 =>
      if i < total then
        if cancelledAt (i / campaignBatchSize) then
          (CampaignStatus.SENT, res)
        else
          let batch := (List.range total).drop i |>.take campaignBatchSize
          campaignLoop total sendOk cancelledAt fuel (i + campaignBatchSize)
            (processBatch sendOk res batch)
      else
        (CampaignStatus.SENT, res)

/-- Source `CampaignService.processCampaign` on a campaign with `total` recipients:
run the batch loop from index 0 with zeroed counters, returning the final
persisted status and counters. -/
def processCampaign (total : Nat) (sendOk : Nat → Bool) (cancelledAt : Nat → Bool) :
    CampaignStatus × CampaignResults :=
  campaignLoop total sendOk cancelledAt (total + 1) 0
    { sent := 0, delivered := 0, failed := 0 }

/-- Source `CampaignService.cancelCampaign` on a SENDING campaign: remove the id
from the in-memory `runningCampaigns` registry and persist `CANCELLED` (a
status the still-running `processCampaign` later overwrites). -/
def cancelCampaign (running : List Nat) (campaignId : Nat) :
    List Nat × CampaignStatus :=
  (running.filter (fun c => !(c == campaignId)), CampaignStatus.CANCELLED)

/-! Section: concrete fixtures used by witnesses and counterexamples. -/

/-- A store with no rows at all. -/
def emptyStore : Store := ⟨[], [], [], [], []⟩

/-- A fixed clock inside business hours (Monday, 10h). -/
def mondayMorning : Clock := ⟨10, Weekday.segunda⟩

/-- An online ACTIVE agent of company 1. -/
def agentUser : User := ⟨2, 1, Role.AGENT, UserStatus.ACTIVE, true⟩

/-- An unassigned PENDING conversation of company 1 and contact 1. -/
def pendingConv : Conversation := ⟨1, 1, 1, ConvStatus.PENDING, []⟩

/-- An OPEN conversation of company 1 and contact 1. -/
def openConv : Conversation := ⟨1, 1, 1, ConvStatus.OPEN, ["WHATSAPP"]⟩

/-- A plain user message with no escalation keyword. -/
def sampleText : String := "ola"

/-- The WhatsApp channel tag. -/
def whatsappChannel : String := "WHATSAPP"

/-- The escalation scenario's user message from the spec: it contains the
keywords "atendente" and "humano". -/
def escalationExampleMessage : String := "quero falar com um atendente humano"

/-- Store for the duplicate-assignment scenario: conversation 1 is OPEN and
already actively assigned to the online agent, and the company has no
chatbot, so an inbound message routes straight to `assignToAgent`. -/
def dupAssignStore : Store :=
  ⟨[agentUser], [openConv], [⟨2, 1, true⟩], [], []⟩

/-- Store for the tie-break scenario: three online ACTIVE AGENT users of
company 1 with ids 1, 2, 3 in store order, carrying 3, 2 and 2 active
assignments respectively. -/
def tieStore : Store :=
  ⟨[⟨1, 1, Role.AGENT, UserStatus.ACTIVE, true⟩,
    ⟨2, 1, Role.AGENT, UserStatus.ACTIVE, true⟩,
    ⟨3, 1, Role.AGENT, UserStatus.ACTIVE, true⟩],
   [],
   [⟨1, 11, true⟩, ⟨1, 12, true⟩, ⟨1, 13, true⟩,
    ⟨2, 14, true⟩, ⟨2, 15, true⟩,
    ⟨3, 16, true⟩, ⟨3, 17, true⟩],
   [], []⟩

/-- Store for the presence-failure scenario: conversation 1 is PENDING and
unassigned, and one online ACTIVE agent is available. -/
def presenceFailStore : Store :=
  ⟨[agentUser], [pendingConv], [], [], []⟩

/-- Store for the escalation scenario: conversation 1 is PENDING, one online
ACTIVE agent is available, and the company has an active chatbot. -/
def escalationStore : Store :=
  ⟨[agentUser], [pendingConv], [], [⟨1, 1, true⟩], []⟩

/-! Section: theorems settling the claims. -/

/-- C10: when inbound-message processing is invoked for a conversation whose
id is already in the in-memory processingQueue, the invocation returns
immediately and performs no action: the store is unchanged (no bot message,
no assignment, no status change) and no notification is emitted. -/
theorem claim10_concurrent_invocation_is_dropped
    (queue : List Nat) (st : Store) (clk : Clock) (conv : Conversation)
    (userMessage : String) (aiReply : Option String)
    (h : conv.id ∈ queue) :
    processIncomingMessage queue st clk conv userMessage aiReply = (st, []) := by
  simp [processIncomingMessage, h]

/-- Witness for C10 at a concrete queue, store and message. -/
theorem claim10_concurrent_invocation_is_dropped_witness :
    processIncomingMessage [1] emptyStore mondayMorning pendingConv sampleText none
      = (emptyStore, []) :=
  claim10_concurrent_invocation_is_dropped [1] emptyStore mondayMorning pendingConv
    sampleText none (by decide)

/-- C1 (code bug): conversation 1 is already actively assigned to agent 2,
yet routing one more inbound message through the automatic path creates a
second active assignment for it — `MessageProcessor.assignToAgent` creates
its ConversationAgent row without deactivating prior active rows, violating
the at-most-one-active-assignment invariant. -/
theorem claim1_auto_routing_creates_second_active_assignment :
    activeAssignmentCount dupAssignStore 1 = 1 ∧
    activeAssignmentCount
      (processIncomingMessage [] dupAssignStore mondayMorning openConv sampleText none).1 1
      = 2 :=
  ⟨rfl, rfl⟩

/-- C6 (code bug): cancelling a SENDING campaign removes its id from the
running registry and persists CANCELLED, and the batch loop of a 25-recipient
campaign cancelled after batch 1 stops with sent+failed = 10 — but the loop's
finalizer then persists SENT, so the campaign's final status is SENT, not
CANCELLED. -/
theorem claim6_cancelled_campaign_ends_marked_sent :
    cancelCampaign [7] 7 = ([], CampaignStatus.CANCELLED) ∧
    processCampaign 25 (fun _ => true) (fun b => !(b == 0)) =
      (CampaignStatus.SENT, ⟨10, 10, 0⟩) :=
  ⟨rfl, rfl⟩

/-- C3 (counterexample): on a store with no OPEN/PENDING conversation for the
pair, find-or-create builds the new conversation with status OPEN, not
PENDING as the claim states. -/
theorem claim3_counterexample :
    findActiveConv emptyStore 1 1 = none ∧
    (findOrCreateUnifiedConversation emptyStore 1 1 whatsappChannel).1.status
      ≠ ConvStatus.PENDING :=
  ⟨rfl, by decide⟩

/-- C3 (amended): for every inbound message from a contact with an existing
OPEN or PENDING conversation for the (contact, company) pair, find-or-create
returns that existing conversation; when no such conversation exists, the
newly created conversation has status OPEN. -/
theorem claim3_find_or_create (st : Store) (contactId companyId : Nat)
    (channel : String) :
    (∀ c, findActiveConv st contactId companyId = some c →
      (findOrCreateUnifiedConversation st contactId companyId channel).1 = c) ∧
    (findActiveConv st contactId companyId = none →
      (findOrCreateUnifiedConversation st contactId companyId channel).1.status
        = ConvStatus.OPEN) := by
  constructor
  · intro c hc
    simp [findOrCreateUnifiedConversation, hc]
  · intro hn
    simp [findOrCreateUnifiedConversation, hn]

/-- Witness for C3 (amended) at a concrete store with no active conversation. -/
theorem claim3_find_or_create_witness :
    (findOrCreateUnifiedConversation emptyStore 1 1 whatsappChannel).1.status
      = ConvStatus.OPEN :=
  (claim3_find_or_create emptyStore 1 1 whatsappChannel).2 rfl

/-- Characterization of the `hasActiveChatbot` test in `shouldUseChatbot`. -/
theorem hasActiveChatbot_iff (st : Store) (c : Nat) :
    (!(activeChatbots st c).isEmpty) = true ↔
      ∃ cb ∈ st.chatbots, cb.companyId = c ∧ cb.isActive = true := by
  simp [activeChatbots]

/-- Characterization of the `onlineAgents.length === 0` test in
`shouldUseChatbot`. -/
theorem noOnlineRoutable_iff (st : Store) (c : Nat) :
    ((onlineRoutableUsers st c).length == 0) = true ↔
      ¬ ∃ u ∈ st.users, u.companyId = c ∧ u.isOnline = true ∧
        (u.role = Role.AGENT ∨ u.role = Role.MANAGER ∨ u.role = Role.ADMIN) ∧
        u.status = UserStatus.ACTIVE := by
  simp [onlineRoutableUsers, not_exists, or_assoc]

/-- Characterization of the `isUnassigned` test in `shouldUseChatbot`. -/
theorem unassigned_iff (st : Store) (i : Nat) :
    (!isConversationAssigned st i) = true ↔
      ¬ ∃ a ∈ st.assignments, a.conversationId = i ∧ a.isActive = true := by
  simp [isConversationAssigned, not_exists]

/-- C2: the routing engine delegates to the chatbot iff the company has at
least one active chatbot and (no online ACTIVE user with role AGENT, MANAGER
or ADMIN exists, or the current time is outside configured business hours, or
the conversation has no active assignment). -/
theorem claim2_chatbot_decision_rule (st : Store) (clk : Clock)
    (conv : Conversation) :
    shouldUseChatbot st clk conv = true ↔
      (∃ cb ∈ st.chatbots, cb.companyId = conv.companyId ∧ cb.isActive = true) ∧
      ((¬ ∃ u ∈ st.users, u.companyId = conv.companyId ∧ u.isOnline = true ∧
          (u.role = Role.AGENT ∨ u.role = Role.MANAGER ∨ u.role = Role.ADMIN) ∧
          u.status = UserStatus.ACTIVE) ∨
        isBusinessHours clk = false ∨
        ¬ ∃ a ∈ st.assignments, a.conversationId = conv.id ∧ a.isActive = true) := by
  show ((!(activeChatbots st conv.companyId).isEmpty)
      && ((onlineRoutableUsers st conv.companyId).length == 0
          || !isBusinessHours clk || !isConversationAssigned st conv.id)) = true ↔ _
  rw [Bool.and_eq_true, Bool.or_eq_true, Bool.or_eq_true,
    hasActiveChatbot_iff, noOnlineRoutable_iff, unassigned_iff, Bool.not_eq_true',
    or_assoc]

/-- C9: presence tracks multiple concurrent connections per agent: after
connecting two distinct connections for an agent the agent is online, after
disconnecting the first it is still online, and only after disconnecting the
last remaining connection does the agent become offline. -/
theorem claim9_presence_multi_connection (a c1 c2 : Nat) (h : c1 ≠ c2) :
    ((Presence.empty.addUser a c1).addUser a c2).isUserOnline a = true ∧
    (((Presence.empty.addUser a c1).addUser a c2).removeUser c1).1.isUserOnline a
      = true ∧
    ((((Presence.empty.addUser a c1).addUser a c2).removeUser c1).1.removeUser c2).1.isUserOnline a
      = false := by
  have h12 : (c1 == c2) = false := by simp [h]
  have h21 : (c2 == c1) = false := by simp [Ne.symm h]
  refine ⟨?_, ?_, ?_⟩ <;>
    simp [Presence.addUser, Presence.removeUser, Presence.isUserOnline,
      Presence.empty, alistGet, alistSet, alistDelete, setAdd, h, Ne.symm h,
      h12, h21]

/-- Witness for C9 with agent 1 and connections 10 and 11. -/
theorem claim9_presence_multi_connection_witness :
    ((Presence.empty.addUser 1 10).addUser 1 11).isUserOnline 1 = true ∧
    (((Presence.empty.addUser 1 10).addUser 1 11).removeUser 10).1.isUserOnline 1
      = true ∧
    ((((Presence.empty.addUser 1 10).addUser 1 11).removeUser 10).1.removeUser 11).1.isUserOnline 1
      = false :=
  claim9_presence_multi_connection 1 10 11 (by decide)

/-- C7 (counterexample): the presence lookup fails while an online ACTIVE
agent is available — the routing outcome is an assignment (conversation set
OPEN, `conversation:assigned` emitted), not QueuedPending as the claim
states. -/
theorem claim7_counterexample :
    convStatus (processIncomingMessageOnPresenceFailure [] presenceFailStore pendingConv).1 1
      = some ConvStatus.OPEN ∧
    (processIncomingMessageOnPresenceFailure [] presenceFailStore pendingConv).2
      = [{ event := "conversation:assigned", conversationId := 1 }] :=
  ⟨rfl, rfl⟩

/-- C7 (amended): if the presence/agent lookup inside `shouldUseChatbot`
fails, the error is caught, chatbot handling is declined, and routing
proceeds down the human-assignment path; the QueuedPending outcome (PENDING
plus a pending notification) occurs exactly when no agent is available. -/
theorem claim7_presence_failure_routes_to_assignment
    (queue : List Nat) (st : Store) (conv : Conversation)
    (h : conv.id ∉ queue) :
    processIncomingMessageOnPresenceFailure queue st conv = assignToAgent st conv ∧
    (findAvailableAgent st conv.companyId = none →
      (processIncomingMessageOnPresenceFailure queue st conv).2
        = [{ event := "conversation:pending", conversationId := conv.id }]) := by
  have he : processIncomingMessageOnPresenceFailure queue st conv
      = assignToAgent st conv := by
    simp [processIncomingMessageOnPresenceFailure, shouldUseChatbotOnLookupFailure, h]
  refine ⟨he, fun hn => ?_⟩
  rw [he]
  simp [assignToAgent, hn]

/-- Witness for C7 (amended) at a store with no available agent. -/
theorem claim7_presence_failure_routes_to_assignment_witness :
    processIncomingMessageOnPresenceFailure [] emptyStore pendingConv
      = assignToAgent emptyStore pendingConv ∧
    (processIncomingMessageOnPresenceFailure [] emptyStore pendingConv).2
      = [{ event := "conversation:pending", conversationId := 1 }] := by
  have h := claim7_presence_failure_routes_to_assignment [] emptyStore pendingConv
    (by decide)
  exact ⟨h.1, h.2 rfl⟩

/-- Updating a conversation's status makes the stored status lookup return
the new status, provided the row exists. -/
theorem convStatus_setConvStatus (st : Store) (i : Nat) (s : ConvStatus)
    (h : (convStatus st i).isSome = true) :
    convStatus (setConvStatus st i s) i = some s := by
  unfold convStatus at h ⊢
  unfold setConvStatus
  rw [List.find?_map]
  have hpf : ((fun c : Conversation => c.id == i) ∘
      (fun c : Conversation => if c.id == i then { c with status := s } else c))
      = (fun c : Conversation => c.id == i) := by
    funext c
    by_cases hc : c.id = i
    · simp [hc]
    · simp [hc]
  rw [hpf]
  cases hfind : List.find? (fun c : Conversation => c.id == i) st.conversations with
  | none => rw [hfind] at h; simp at h
  | some c =>
      have hpc0 := List.find?_some hfind
      have hci : c.id = i := by simpa using hpc0
      simp [hci]

/-- Outcome analysis of `assignToAgent`: either some agent was available and
the conversation ends OPEN with an active assignment and an assigned
notification, or none was and it ends PENDING with a pending notification. -/
theorem assignToAgent_cases (st : Store) (conv : Conversation)
    (h : (convStatus st conv.id).isSome = true) :
    (isConversationAssigned (assignToAgent st conv).1 conv.id = true ∧
      convStatus (assignToAgent st conv).1 conv.id = some ConvStatus.OPEN ∧
      (assignToAgent st conv).2
        = [{ event := "conversation:assigned", conversationId := conv.id }]) ∨
    (convStatus (assignToAgent st conv).1 conv.id = some ConvStatus.PENDING ∧
      (assignToAgent st conv).2
        = [{ event := "conversation:pending", conversationId := conv.id }]) := by
  unfold assignToAgent
  cases hfa : findAvailableAgent st conv.companyId with
  | none => exact Or.inr ⟨convStatus_setConvStatus st conv.id _ h, rfl⟩
  | some agent =>
      refine Or.inl ⟨?_, ?_, rfl⟩
      · simp [isConversationAssigned, setConvStatus, List.any_append]
      · exact convStatus_setConvStatus _ conv.id _ h

/-- C8: for a chatbot-handled inbound message containing an escalation
keyword (the spec's example contains "atendente" and "humano"), the keyword
scan reports a transfer regardless of the AI collaborator's reply, the
pipeline hands the conversation to `assignToAgent`, and the conversation ends
with an active human assignment in OPEN state or in PENDING state — never
left bot-handled. -/
theorem claim8_escalation_keyword_forces_handoff (st : Store)
    (conv : Conversation) (aiReply : Option String)
    (h : (convStatus st conv.id).isSome = true) :
    (∀ resp, shouldTransferToAgent resp escalationExampleMessage = true) ∧
    processChatbotResponse st conv escalationExampleMessage aiReply
      = assignToAgent st conv ∧
    ((isConversationAssigned
        (processChatbotResponse st conv escalationExampleMessage aiReply).1 conv.id
        = true ∧
      convStatus (processChatbotResponse st conv escalationExampleMessage aiReply).1 conv.id
        = some ConvStatus.OPEN) ∨
      convStatus (processChatbotResponse st conv escalationExampleMessage aiReply).1 conv.id
        = some ConvStatus.PENDING) := by
  have hk : ∀ resp, shouldTransferToAgent resp escalationExampleMessage = true := by
    intro resp
    unfold shouldTransferToAgent
    apply List.any_eq_true.mpr
    refine ⟨"atendente", by decide, ?_⟩
    have hconc : jsIncludes (jsToLower escalationExampleMessage) "atendente" = true := by
      decide
    rw [hconc, Bool.or_true]
  have he : processChatbotResponse st conv escalationExampleMessage aiReply
      = assignToAgent st conv := by
    unfold processChatbotResponse
    cases hcb : findFirstChatbot st conv.companyId with
    | none => rfl
    | some bot =>
        cases aiReply with
        | none => simp [generateAIResponse]
        | some resp => simp [generateAIResponse, hk resp]
  refine ⟨hk, he, ?_⟩
  rw [he]
  rcases assignToAgent_cases st conv h with ⟨h1, h2, _⟩ | ⟨h1, _⟩
  · exact Or.inl ⟨h1, h2⟩
  · exact Or.inr h1

/-- Witness for C8 at a concrete store with an active chatbot, an available
agent and an innocuous AI reply. -/
theorem claim8_escalation_keyword_forces_handoff_witness :
    shouldTransferToAgent sampleText escalationExampleMessage = true ∧
    processChatbotResponse escalationStore pendingConv escalationExampleMessage
        (some sampleText)
      = assignToAgent escalationStore pendingConv ∧
    ((isConversationAssigned
        (processChatbotResponse escalationStore pendingConv escalationExampleMessage
          (some sampleText)).1 1 = true ∧
      convStatus (processChatbotResponse escalationStore pendingConv
          escalationExampleMessage (some sampleText)).1 1 = some ConvStatus.OPEN) ∨
      convStatus (processChatbotResponse escalationStore pendingConv
          escalationExampleMessage (some sampleText)).1 1 = some ConvStatus.PENDING) := by
  have h := claim8_escalation_keyword_forces_handoff escalationStore pendingConv
    (some sampleText) rfl
  exact ⟨h.1 sampleText, h.2.1, h.2.2⟩

/-- The reduce in `findAvailableAgent` returns a least-loaded element of the
scanned list. -/
theorem foldl_leastLoaded_min (st : Store) :
    ∀ (l : List User) (a : User), ∀ v ∈ a :: l,
      agentLoad st (l.foldl (leastLoadedStep st) a).id ≤ agentLoad st v.id := by
  intro l
  induction l with
  | nil =>
      intro a v hv
      rw [List.mem_singleton.mp hv]
      exact le_refl _
  | cons b t ih =>
      intro a v hv
      have hsa : agentLoad st (leastLoadedStep st a b).id ≤ agentLoad st a.id := by
        unfold leastLoadedStep
        split <;> omega
      have hsb : agentLoad st (leastLoadedStep st a b).id ≤ agentLoad st b.id := by
        unfold leastLoadedStep
        split <;> omega
      have hseed := ih (leastLoadedStep st a b) (leastLoadedStep st a b)
        (List.mem_cons_self _ _)
      rw [List.foldl_cons]
      rcases List.mem_cons.mp hv with rfl | hv2
      · exact le_trans hseed hsa
      · rcases List.mem_cons.mp hv2 with rfl | hv3
        · exact le_trans hseed hsb
        · exact ih (leastLoadedStep st a b) v (List.mem_cons_of_mem _ hv3)

/-- The reduce in `findAvailableAgent` returns the LAST element attaining the
minimum load: everything after the returned element in the scanned list is
strictly more loaded. -/
theorem foldl_leastLoaded_last (st : Store) :
    ∀ (l : List User) (a : User),
      ∃ p s, a :: l = p ++ (l.foldl (leastLoadedStep st) a) :: s ∧
        ∀ v ∈ s, agentLoad st (l.foldl (leastLoadedStep st) a).id < agentLoad st v.id := by
  intro l
  induction l with
  | nil => exact fun a => ⟨[], [], rfl, by simp⟩
  | cons b t ih =>
      intro a
      rw [List.foldl_cons]
      by_cases hab : agentLoad st a.id < agentLoad st b.id
      · have hstep : leastLoadedStep st a b = a := if_pos hab
        rw [hstep]
        obtain ⟨p, s, hd, hs⟩ := ih a
        cases p with
        | nil =>
            simp only [List.nil_append, List.cons.injEq] at hd
            refine ⟨[], b :: t, ?_, ?_⟩
            · rw [List.nil_append, ← hd.1]
            · intro v hv
              rcases List.mem_cons.mp hv with rfl | hv2
              · rw [← hd.1]
                exact hab
              · exact hs v (hd.2 ▸ hv2)
        | cons x p2 =>
            simp only [List.cons_append, List.cons.injEq] at hd
            refine ⟨a :: b :: p2, s, ?_, hs⟩
            conv_lhs => rw [hd.2]
            simp only [List.cons_append]
      · have hstep : leastLoadedStep st a b = b := if_neg hab
        rw [hstep]
        obtain ⟨p, s, hd, hs⟩ := ih b
        exact ⟨a :: p, s, by simp [hd], hs⟩

/-- C5 (counterexample): three online ACTIVE agents with ids 1, 2 and 3 in
store order carry active-assignment loads [3, 2, 2]; the code's reduce picks
the agent with id 3 — the LAST agent tied for the fewest — not the lowest-id
tied agent 2 as the claim states. -/
theorem claim5_counterexample :
    agentLoad tieStore 1 = 3 ∧ agentLoad tieStore 2 = 2 ∧
    agentLoad tieStore 3 = 2 ∧
    (findAvailableAgent tieStore 1).map (fun u => u.id) = some 3 :=
  ⟨rfl, rfl, rfl, rfl⟩

/-- C5 (amended): when any online ACTIVE AGENT/MANAGER user of the company
exists, `findAvailableAgent` returns an agent whose active-assignment load is
minimal among them, and among agents tied for the minimum it returns the LAST
one in the order the store lists them (every later agent is strictly more
loaded); the tie is not broken by lowest id. -/
theorem claim5_least_loaded_last_tie (st : Store) (companyId : Nat)
    (h : availableAgents st companyId ≠ []) :
    ∃ u, findAvailableAgent st companyId = some u ∧
      (∀ v ∈ availableAgents st companyId,
        agentLoad st u.id ≤ agentLoad st v.id) ∧
      ∃ p s, availableAgents st companyId = p ++ u :: s ∧
        ∀ v ∈ s, agentLoad st u.id < agentLoad st v.id := by
  cases hl : availableAgents st companyId with
  | nil => exact absurd hl h
  | cons a rest =>
      refine ⟨rest.foldl (leastLoadedStep st) a, ?_, ?_, ?_⟩
      · unfold findAvailableAgent
        rw [hl]
      · intro v hv
        exact foldl_leastLoaded_min st rest a v hv
      · obtain ⟨p, s, hd, hs⟩ := foldl_leastLoaded_last st rest a
        exact ⟨p, s, hd, hs⟩

/-- Witness for C5 (amended) at the concrete three-agent store. -/
theorem claim5_least_loaded_last_tie_witness :
    availableAgents tieStore 1 ≠ [] ∧
    (∃ u, findAvailableAgent tieStore 1 = some u ∧
      (∀ v ∈ availableAgents tieStore 1,
        agentLoad tieStore u.id ≤ agentLoad tieStore v.id) ∧
      ∃ p s, availableAgents tieStore 1 = p ++ u :: s ∧
        ∀ v ∈ s, agentLoad tieStore u.id < agentLoad tieStore v.id) :=
  ⟨by decide, claim5_least_loaded_last_tie tieStore 1 (by decide)⟩

/-- Mapping a row transformation that does not change whether the predicate
holds commutes with `find?`. -/
theorem find?_map_pred_inv {α : Type} (f : α → α) (pr : α → Bool)
    (hf : ∀ x, pr (f x) = pr x) (l : List α) :
    (l.map f).find? pr = (l.find? pr).map f := by
  rw [List.find?_map]
  have hcomp : pr ∘ f = pr := funext hf
  rw [hcomp]

/-- Mapping a row transformation that does not change whether the predicate
holds preserves the number of matching rows. -/
theorem length_filter_map_pred_inv {α : Type} (f : α → α) (pr : α → Bool)
    (hf : ∀ x, pr (f x) = pr x) (l : List α) :
    ((l.map f).filter pr).length = (l.filter pr).length := by
  rw [List.filter_map, List.length_map]
  have hcomp : pr ∘ f = pr := funext hf
  rw [hcomp]

/-- The channel refresh of `addChannel` leaves the find-or-create predicate
of every conversation row unchanged (it only touches the channel list). -/
theorem addChannel_row_pred_inv (p q convId : Nat) (ch : String)
    (x : Conversation) :
    ((fun c : Conversation =>
        c.contactId == p && c.companyId == q
          && (c.status == ConvStatus.OPEN || c.status == ConvStatus.PENDING))
      (if x.id == convId then
        { x with channels :=
            if ch ∈ x.channels then x.channels else x.channels ++ [ch] }
      else x))
    = (x.contactId == p && x.companyId == q
        && (x.status == ConvStatus.OPEN || x.status == ConvStatus.PENDING)) := by
  by_cases hx : x.id = convId
  · simp [hx]
  · simp [hx]

/-- Step analysis of find-or-create when an active conversation exists: the
found conversation is returned, an active conversation with the same id is
still found afterwards, and the number of active conversations for the pair
is unchanged. -/
theorem foc_found (st : Store) (p q : Nat) (ch : String) (c : Conversation)
    (hc : findActiveConv st p q = some c) :
    (findOrCreateUnifiedConversation st p q ch).1 = c ∧
    (∃ c2, findActiveConv (findOrCreateUnifiedConversation st p q ch).2 p q
      = some c2 ∧ c2.id = c.id) ∧
    countActivePair (findOrCreateUnifiedConversation st p q ch).2 p q
      = countActivePair st p q := by
  unfold findOrCreateUnifiedConversation
  rw [hc]
  refine ⟨rfl, ?_, ?_⟩
  · unfold findActiveConv at hc ⊢
    unfold addChannel
    rw [find?_map_pred_inv _ _ (addChannel_row_pred_inv p q c.id ch), hc]
    refine ⟨_, rfl, ?_⟩
    simp
  · unfold countActivePair addChannel
    rw [length_filter_map_pred_inv _ _ (addChannel_row_pred_inv p q c.id ch)]

/-- Step analysis of find-or-create when no active conversation exists: the
pair had zero active conversations, the created conversation is returned and
found by the next lookup, and the active count becomes one. -/
theorem foc_none (st : Store) (p q : Nat) (ch : String)
    (hn : findActiveConv st p q = none) :
    countActivePair st p q = 0 ∧
    (findActiveConv (findOrCreateUnifiedConversation st p q ch).2 p q
      = some (findOrCreateUnifiedConversation st p q ch).1) ∧
    countActivePair (findOrCreateUnifiedConversation st p q ch).2 p q = 1 := by
  have hzero : countActivePair st p q = 0 := by
    unfold findActiveConv at hn
    unfold countActivePair
    rw [List.length_eq_zero, List.filter_eq_nil_iff]
    exact List.find?_eq_none.mp hn
  unfold findOrCreateUnifiedConversation
  rw [hn]
  have hnewpred :
      ((freshConvId st : Nat) == (freshConvId st : Nat)) = true := by simp
  refine ⟨hzero, ?_, ?_⟩
  · unfold findActiveConv at hn ⊢
    rw [List.find?_append, hn, Option.none_or]
    simp
  · unfold countActivePair at hzero ⊢
    rw [List.filter_append, List.length_append, hzero]
    simp

/-- Once an active conversation for the pair exists, every further inbound
find-or-create step returns its id and keeps at most one active conversation
for the pair. -/
theorem runInbound_stable (p q : Nat) (ch : String) :
    ∀ (n : Nat) (st : Store) (i0 : Nat),
      (∃ c, findActiveConv st p q = some c ∧ c.id = i0) →
      countActivePair st p q ≤ 1 →
      (∀ i ∈ (runInbound st p q ch n).1, i = i0) ∧
      countActivePair (runInbound st p q ch n).2 p q ≤ 1 := by
  intro n
  induction n with
  | zero =>
      intro st i0 _ hcnt
      exact ⟨by simp [runInbound], by simpa [runInbound] using hcnt⟩
  | succ k ih =>
      rintro st i0 ⟨c, hc, hid⟩ hcnt
      obtain ⟨hret, ⟨c2, hc2, hc2id⟩, hcount⟩ := foc_found st p q ch c hc
      have hrest := ih (findOrCreateUnifiedConversation st p q ch).2 i0
        ⟨c2, hc2, hc2id.trans hid⟩ (by rw [hcount]; exact hcnt)
      simp only [runInbound]
      refine ⟨?_, hrest.2⟩
      intro i hi
      rcases List.mem_cons.mp hi with rfl | hi2
      · rw [hret, hid]
      · exact hrest.1 i hi2

/-- C4: starting from any store where the (contact, company) pair has at most
one OPEN/PENDING conversation, any number of consecutive inbound
find-or-create events (no intervening close) keeps at most one OPEN/PENDING
conversation for the pair, and every event returns the same conversation
id. -/
theorem claim4_single_active_conversation (st : Store) (p q : Nat)
    (ch : String) (hinv : countActivePair st p q ≤ 1) (n : Nat) :
    countActivePair (runInbound st p q ch n).2 p q ≤ 1 ∧
    ∀ i ∈ (runInbound st p q ch n).1,
      ∀ j ∈ (runInbound st p q ch n).1, i = j := by
  cases hfa : findActiveConv st p q with
  | some c =>
      obtain ⟨hall, hcnt⟩ := runInbound_stable p q ch n st c.id ⟨c, hfa, rfl⟩ hinv
      exact ⟨hcnt, fun i hi j hj => (hall i hi).trans (hall j hj).symm⟩
  | none =>
      cases n with
      | zero =>
          exact ⟨by simpa [runInbound] using hinv, by simp [runInbound]⟩
      | succ k =>
          obtain ⟨hzero, hfind2, hone⟩ := foc_none st p q ch hfa
          obtain ⟨hall, hcnt⟩ := runInbound_stable p q ch k
            (findOrCreateUnifiedConversation st p q ch).2
            (findOrCreateUnifiedConversation st p q ch).1.id
            ⟨_, hfind2, rfl⟩ (by rw [hone])
          simp only [runInbound]
          refine ⟨hcnt, ?_⟩
          intro i hi j hj
          have hmem : ∀ x, x ∈ (findOrCreateUnifiedConversation st p q ch).1.id ::
              (runInbound (findOrCreateUnifiedConversation st p q ch).2 p q ch k).1 →
              x = (findOrCreateUnifiedConversation st p q ch).1.id := by
            intro x hx
            rcases List.mem_cons.mp hx with rfl | hx2
            · rfl
            · exact hall x hx2
          exact (hmem i hi).trans (hmem j hj).symm

/-- Witness for C4: three inbound events on an empty store return one id and
keep the invariant. -/
theorem claim4_single_active_conversation_witness :
    countActivePair (runInbound emptyStore 1 1 whatsappChannel 3).2 1 1 ≤ 1 ∧
    ∀ i ∈ (runInbound emptyStore 1 1 whatsappChannel 3).1,
      ∀ j ∈ (runInbound emptyStore 1 1 whatsappChannel 3).1, i = j :=
  claim4_single_active_conversation emptyStore 1 1 whatsappChannel (by decide) 3

end ChatFlow
